import Mathlib

/-!
Shallow embedding of `src/main.py` of astrbot-plugin-jmcomic-downloader
(class `JmComicDownloader`), covering the orchestration core:
identifier validation (`_validate_album_id`), option-file (descriptor)
creation (`_create_option_file`), cache lookup, engine dispatch and
completion polling (`_download_album`), the tenacity retry wrapper, and
the message handler (`handle_album_id`).

Modelling conventions:
* The filesystem is an association list from path to file content.
* Python exceptions are an explicit `PyErr` value in `Except`.
* `pathlib.Path.resolve()` is modelled as the identity on the embedded
  path strings (no claim depends on the absolute form of a path).
* Wall-clock time in the polling loop is discretised to the 1-second
  poll interval: `present t` says whether the expected artifact exists
  at the check made after `t` sleeps.
* The external engine (`jmcomic.download_album`) is an opaque
  collaborator, modelled by whether its call raises and by the artifact
  appearance timeline it produces (`EngineBehavior`).
* The astrbot message component stringification `str(message[0])` is
  modelled as returning the full text of the inbound message.
-/

/-- Python exception values raised by the orchestration core.
`retryError` models `tenacity.RetryError` (the specification's
`RetriesExhausted`), which wraps the failure of the last attempt. -/
inductive PyErr where
  | attributeError (msg : String)
  | timeoutError (msg : String)
  | engineError (msg : String)
  | retryError (last : PyErr)
deriving DecidableEq

/-- The filesystem: an association list from path to file content.
An earlier entry shadows a later one for the same path. -/
abbrev Fs := List (String × String)

/-- Existence check for a path. -/
def fsExists (fs : Fs) (path : String) : Bool :=
  fs.any (fun kv => kv.1 == path)

/-- Overwriting text write (`Path.write_text`). -/
def fsWrite (fs : Fs) (path content : String) : Fs :=
  (path, content) :: fs

/-- A Python value that is either a `pathlib.Path` or a plain `str`.
`__init__` (main.py line 29) stores `self._option_file` as a plain
`str` literal, while the two directories are `Path` objects. -/
inductive PyPathLike where
  | path (s : String)
  | str (s : String)
deriving DecidableEq

/-- Message of the AttributeError raised when `.exists` is looked up on
a `str` (Python quotes the attribute and type names; quotes elided). -/
def attrErrMsg : String := "str object has no attribute exists"

/-- Attribute lookup and call of `.exists()`: defined for `Path`,
an `AttributeError` for `str`. -/
def pyExists (v : PyPathLike) (fs : Fs) : Except PyErr Bool :=
  match v with
  | .path s => .ok (fsExists fs s)
  | .str _ => .error (.attributeError attrErrMsg)

/-- Attribute lookup and call of `.write_text(content)`: defined for
`Path`, an `AttributeError` for `str`. -/
def pyWriteText (v : PyPathLike) (content : String) (fs : Fs) : Except PyErr Fs :=
  match v with
  | .path s => .ok (fsWrite fs s content)
  | .str _ => .error (.attributeError "str object has no attribute write_text")

/-- Class constant `MAX_RETRY_ATTEMPTS = 3`. -/
def MAX_RETRY_ATTEMPTS : Nat := 3

/-- Class constant `FILE_TIMEOUT = 30` (seconds). -/
def FILE_TIMEOUT : Nat := 30

/-- Class constant `PDF_SUFFIX = ".pdf"`. -/
def PDF_SUFFIX : String := ".pdf"

/-- The well-known descriptor path assigned on main.py line 29. -/
def OPTION_FILE_PATH : String := "./data/plugins/astrbot_plugin_jmcomic_downloader/option.yml"

/-- The recognised configuration surface (`AstrBotConfig.get` keys). -/
structure AstrBotConfig where
  jm_download_dir : Option String
  jm_pdf_dir : Option String
  jm_username : Option String
  jm_password : Option String

/-- Instance state of `JmComicDownloader` after `__init__`. -/
structure Plugin where
  base_dir : String
  pdf_dir : String
  username : String
  password : String
  option_file : PyPathLike

/-- `__init__` (main.py lines 22-33): directories from config with
defaults (`Path(...).resolve()` modelled as identity), credentials with
empty defaults, and `_option_file` held as a plain `str`. -/
def mkPlugin (cfg : AstrBotConfig) : Plugin :=
  ⟨cfg.jm_download_dir.getD "./data/plugins/astrbot_plugin_jmcomic_downloader/downloads",
   cfg.jm_pdf_dir.getD "./data/plugins/astrbot_plugin_jmcomic_downloader/pdf",
   cfg.jm_username.getD "",
   cfg.jm_password.getD "",
   PyPathLike.str OPTION_FILE_PATH⟩

/-- The descriptor content synthesised by `_create_option_file`
(main.py lines 54-79), with the instance fields interpolated. -/
def optionContent (p : Plugin) : String :=
  "log: true\nclient:\n  impl: api\n  retry_times: 3\ndownload:\n  cache: true\n  image:\n    decode: true\n    suffix: .jpg\n  threading:\n    image: 30\n    photo: 8\ndir_rule:\n  base_dir: "
    ++ p.base_dir
    ++ "\n  rule: Bd_Aid_Pindex\nplugins:\n  after_init:\n    - plugin: login\n      kwargs:\n          username: "
    ++ p.username
    ++ "\n          password: "
    ++ p.password
    ++ "\n  after_album:\n    - plugin: img2pdf\n      kwargs:\n        pdf_dir: "
    ++ p.pdf_dir
    ++ "\n        filename_rule: Aid"

/-- `_create_option_file` (main.py lines 51-81): guarded by an
existence check on `self._option_file` and, when absent, one
`write_text` of the synthesised content.  Both attribute accesses go
through the `PyPathLike` dispatch, because `_option_file` is a `str`. -/
def create_option_file (p : Plugin) (fs : Fs) : Except PyErr Fs :=
  match pyExists p.option_file fs with
  | .error e => .error e
  | .ok b =>
    if b then .ok fs
    else
      match pyWriteText p.option_file (optionContent p) fs with
      | .error e => .error e
      | .ok fs2 => .ok fs2

/-- The expected artifact path `self.pdf_dir / f"{album_id}{PDF_SUFFIX}"`
(main.py line 91). -/
def pdfPath (p : Plugin) (album_id : String) : String :=
  p.pdf_dir ++ "/" ++ album_id ++ PDF_SUFFIX

/-- Message of the TimeoutError raised on main.py line 110. -/
def timeoutMsg (path : String) : String := "文件生成超时: " ++ path

/-- The polling loop of `_download_album` (main.py lines 106-111), at
elapsed time `t` (seconds since `start_time`, one per `asyncio.sleep(1)`).
Each iteration first checks existence, then raises `TimeoutError` when
`elapsed > FILE_TIMEOUT`.  The `fuel` argument only bounds the
recursion; the loop leaves by itself no later than `t = FILE_TIMEOUT+1`,
so with starting fuel `FILE_TIMEOUT + 2` the fuel-exhaustion branch
(whose value is chosen to agree with the timeout branch) is never
reached. -/
def awaitArtifactAux (present : Nat → Bool) (path : String) : Nat → Nat → Except PyErr String
  | _, 0 => .error (.timeoutError (timeoutMsg path))
  | t, fuel+1 =>
    if present t then .ok path
    else if FILE_TIMEOUT < t then .error (.timeoutError (timeoutMsg path))
    else awaitArtifactAux present path (t+1) fuel

/-- The completion poller: the loop of main.py lines 106-111 started at
elapsed time 0. -/
def awaitArtifact (present : Nat → Bool) (path : String) : Except PyErr String :=
  awaitArtifactAux present path 0 (FILE_TIMEOUT + 2)

/-- Behaviour of the opaque external engine for one dispatch:
whether `jmcomic.download_album` raises, and the artifact appearance
timeline observed by the subsequent polling loop. -/
structure EngineBehavior where
  raises : Bool
  present : Nat → Bool

/-- Message standing for whatever exception `jmcomic.download_album`
raised. -/
def engineErrMsg : String := "jmcomic.download_album raised"

/-- The orchestration steps of one attempt, for ordering statements. -/
inductive Step where
  | descriptor
  | cacheCheck
  | dispatch
  | poll
deriving DecidableEq

instance {ε α : Type} [DecidableEq ε] [DecidableEq α] : DecidableEq (Except ε α) :=
  fun a b =>
    match a, b with
    | .ok x, .ok y =>
      if h : x = y then .isTrue (by rw [h]) else .isFalse (fun hc => h (Except.ok.inj hc))
    | .ok _, .error _ => .isFalse (fun hc => Except.noConfusion hc)
    | .error _, .ok _ => .isFalse (fun hc => Except.noConfusion hc)
    | .error x, .error y =>
      if h : x = y then .isTrue (by rw [h]) else .isFalse (fun hc => h (Except.error.inj hc))

/-- Result of one attempt of `_download_album`: the returned path or
raised exception, the ordered list of steps that were reached, and the
filesystem as left by the orchestrator. -/
structure AttemptResult where
  result : Except PyErr String
  trace : List Step
  fs : Fs
deriving DecidableEq

/-- One attempt of `_download_album` (main.py lines 85-114), i.e. the
body wrapped by the tenacity decorator: `_create_option_file`, then the
cache existence check on the expected pdf path, then the engine
dispatch, then the polling loop.  A raise at any step stops the
attempt there. -/
def download_album_attempt (p : Plugin) (album_id : String) (fs : Fs) (eng : EngineBehavior) :
    AttemptResult :=
  match create_option_file p fs with
  | .error e => ⟨.error e, [Step.descriptor], fs⟩
  | .ok fs2 =>
    if fsExists fs2 (pdfPath p album_id) then
      ⟨.ok (pdfPath p album_id), [Step.descriptor, Step.cacheCheck], fs2⟩
    else if eng.raises then
      ⟨.error (.engineError engineErrMsg), [Step.descriptor, Step.cacheCheck, Step.dispatch], fs2⟩
    else
      ⟨awaitArtifact eng.present (pdfPath p album_id),
       [Step.descriptor, Step.cacheCheck, Step.dispatch, Step.poll], fs2⟩

/-- The tenacity wrapper `@retry(stop=stop_after_attempt(3), ...)`
around `_download_album`, with the attempt budget
`MAX_RETRY_ATTEMPTS = 3` unrolled: attempts are tried in order until
one returns; after the third failure the last exception is wrapped in
`RetryError` (tenacity default `reraise=False`).  Returns the final
outcome together with the list of attempt indices that were invoked.
The exponential backoff delays (`wait_exponential(multiplier=1, max=10)`)
only affect timing, not results, and are not modelled. -/
def retryCall3 (a : Nat → Except PyErr String) : Except PyErr String × List Nat :=
  match a 0 with
  | .ok r => (.ok r, [0])
  | .error _ =>
    match a 1 with
    | .ok r => (.ok r, [0, 1])
    | .error _ =>
      match a 2 with
      | .ok r => (.ok r, [0, 1, 2])
      | .error e => (.error (.retryError e), [0, 1, 2])

/-- Outcome of the retried `_download_album`. -/
def retryResult (a : Nat → Except PyErr String) : Except PyErr String :=
  (retryCall3 a).1

/-- Number of attempts the retry controller invoked. -/
def retryCount (a : Nat → Except PyErr String) : Nat :=
  (retryCall3 a).2.length

/-- Python `str.isdigit` on the character list of a string: nonempty
and every character a digit.  (Python additionally accepts some
non-ASCII Unicode digit characters; the embedding instantiates the
digit class with `Char.isDigit`, which covers the ASCII fragment the
surrounding regex and identifiers range over.) -/
def pyIsDigitList (l : List Char) : Bool :=
  !l.isEmpty && l.all Char.isDigit

/-- Python `str.isdigit`. -/
def pyIsDigit (s : String) : Bool := pyIsDigitList s.data

/-- `_validate_album_id` (main.py lines 116-119):
`album_id.isdigit() and 1 <= len(album_id) <= 10`.  A pure function. -/
def validate_album_id (s : String) : Bool :=
  pyIsDigit s && decide (1 ≤ s.length) && decide (s.length ≤ 10)

/-- Whether the trigger pattern `jm\d+` (re.IGNORECASE) matches at the
head of this character list. -/
def triggerHere (l : List Char) : Bool :=
  match l with
  | c1 :: c2 :: c3 :: _ =>
    (c1 == 'j' || c1 == 'J') && (c2 == 'm' || c2 == 'M') && c3.isDigit
  | _ => false

/-- Whether the unanchored search for `jm\d+` (re.IGNORECASE) succeeds
somewhere in the text, i.e. the handler's trigger fires
(main.py line 121). -/
def containsTrigger : List Char → Bool
  | [] => false
  | c :: rest => triggerHere (c :: rest) || containsTrigger rest

/-- A reply yielded by the handler: a plain text, or the final chain of
a completion text plus a file component (path and display name). -/
inductive Reply where
  | plain (text : String)
  | chain (text : String) (filePath : String) (fileName : String)
deriving DecidableEq

/-- What one handler invocation produced: the replies in order, the
number of engine dispatch invocations, and whether `_download_album`
was invoked at all. -/
structure HandlerOutcome where
  replies : List Reply
  dispatches : Nat
  downloadInvoked : Bool
deriving DecidableEq

/-- The invalid-ID reply (main.py line 129). -/
def INVALID_MSG : String := "请输入有效的本子ID，例如: jm123456"

/-- The confirmation reply (main.py line 134). -/
def startMsg (album_id : String) : String :=
  "开始处理 jm" ++ album_id ++ "，请稍候..."

/-- The timeout reply (main.py line 148). -/
def TIMEOUT_REPLY : String := "⚠️ 文件生成超时，请稍后重试"

/-- Python `str(e)` for the embedded exceptions; `RetryError` stringifies
by naming the wrapped last attempt. -/
def errStr : PyErr → String
  | .attributeError m => m
  | .timeoutError m => m
  | .engineError m => m
  | .retryError e2 => "RetryError: " ++ errStr e2

/-- The `except` chain of `handle_album_id` (main.py lines 146-151):
a `TimeoutError` yields the timeout reply, any other exception the
generic failure reply. -/
def failureReply : PyErr → String
  | .timeoutError _ => TIMEOUT_REPLY
  | e => "❌ 处理失败: " ++ errStr e

/-- The attempt the retry controller replays inside one handler call:
attempt `i` sees the filesystem `fsAt i` and engine behaviour
`engAt i`. -/
def handlerAttempt (p : Plugin) (album_id : String) (fsAt : Nat → Fs)
    (engAt : Nat → EngineBehavior) (i : Nat) : AttemptResult :=
  download_album_attempt p album_id (fsAt i) (engAt i)

/-- How many of the invoked attempts reached the engine dispatch. -/
def countDispatches (p : Plugin) (album_id : String) (fsAt : Nat → Fs)
    (engAt : Nat → EngineBehavior) (tried : List Nat) : Nat :=
  (tried.filter
    (fun i => (handlerAttempt p album_id fsAt engAt i).trace.contains Step.dispatch)).length

/-- `handle_album_id` (main.py lines 121-151).  The extracted token
`album_id = str(message[0])` is the full text of the inbound message.
The emptiness test and the validator run first; on failure the
invalid-ID reply is yielded and `_download_album` is never invoked.
Otherwise the confirmation is yielded, `_download_album` runs under the
retry wrapper, and the result is rendered as a file chain or as a
failure reply through the `except` branches. -/
def handle_album_id (p : Plugin) (text : String) (fsAt : Nat → Fs)
    (engAt : Nat → EngineBehavior) : HandlerOutcome :=
  if text = "" ∨ validate_album_id text = false then
    ⟨[Reply.plain INVALID_MSG], 0, false⟩
  else
    match retryCall3 (fun i => (handlerAttempt p text fsAt engAt i).result) with
    | (.ok pdf_file, tried) =>
        ⟨[Reply.plain (startMsg text),
          Reply.chain ("处理完成：jm" ++ text) pdf_file ("jm" ++ text ++ PDF_SUFFIX)],
         countDispatches p text fsAt engAt tried, true⟩
    | (.error e, tried) =>
        ⟨[Reply.plain (startMsg text), Reply.plain (failureReply e)],
         countDispatches p text fsAt engAt tried, true⟩

/-- A configuration with every key unset (all defaults apply). -/
def defaultCfg : AstrBotConfig := ⟨none, none, none, none⟩

/-- A hypothetical plugin state whose descriptor path is held as a
`Path`, used to exhibit satisfiable runs of the attempt pipeline beyond
the descriptor step. -/
def wPlugin : Plugin := ⟨"base", "pdf", "", "", PyPathLike.path "opt"⟩

/-- Filesystem timeline with nothing on disk at any attempt. -/
def wFsAt : Nat → Fs := fun _ => []

/-- Engine that never raises and never produces the artifact. -/
def wEngZero : Nat → EngineBehavior := fun _ => ⟨false, fun _ => false⟩

/-- Engine behaviour per attempt: the first two dispatches raise, the
third returns but the artifact never appears (so polling times out). -/
def wEngAt7 : Nat → EngineBehavior :=
  fun i => if i < 2 then ⟨true, fun _ => false⟩ else ⟨false, fun _ => false⟩

/-- Engine for the end-to-end scenario: dispatch returns and the
artifact appears two seconds later. -/
def wEngC1 : Nat → EngineBehavior := fun _ => ⟨false, fun t => decide (2 ≤ t)⟩

/-- A filesystem already holding the expected artifact for id 123456
under the default configuration. -/
def cachedFs : Fs := [(pdfPath (mkPlugin defaultCfg) "123456", "cached-bytes")]

/-! ### Helper lemmas -/

theorem awaitArtifactAux_ok (present : Nat → Bool) (path : String) :
    ∀ (fuel t u : Nat), t + fuel = FILE_TIMEOUT + 2 → t ≤ u → u ≤ FILE_TIMEOUT + 1 →
      present u = true → awaitArtifactAux present path t fuel = .ok path := by
  intro fuel
  induction fuel with
  | zero =>
    intro t u ht htu hu hp
    exfalso
    unfold FILE_TIMEOUT at ht hu
    omega
  | succ f ih =>
    intro t u ht htu hu hp
    unfold awaitArtifactAux
    by_cases hpt : present t = true
    · rw [if_pos hpt]
    · rw [if_neg hpt]
      have hne : t ≠ u := fun he => hpt (he ▸ hp)
      have hto : ¬ FILE_TIMEOUT < t := by unfold FILE_TIMEOUT at hu ⊢; omega
      rw [if_neg hto]
      exact ih (t + 1) u (by omega) (by omega) hu hp

theorem awaitArtifactAux_timeout (present : Nat → Bool) (path : String) :
    ∀ (fuel t : Nat), t + fuel = FILE_TIMEOUT + 2 →
      (∀ u, u ≤ FILE_TIMEOUT + 1 → present u = false) →
      awaitArtifactAux present path t fuel = .error (.timeoutError (timeoutMsg path)) := by
  intro fuel
  induction fuel with
  | zero => intro t ht h; rfl
  | succ f ih =>
    intro t ht h
    have htle : t ≤ FILE_TIMEOUT + 1 := by omega
    have hpt : present t = false := h t htle
    unfold awaitArtifactAux
    rw [hpt]
    simp only [Bool.false_eq_true, if_false]
    by_cases hto : FILE_TIMEOUT < t
    · rw [if_pos hto]
    · rw [if_neg hto]
      exact ih (t + 1) (by omega) h

theorem triggerHere_head_not_digit (c : Char) (t : List Char)
    (h : triggerHere (c :: t) = true) : c.isDigit = false := by
  match t with
  | [] => simp [triggerHere] at h
  | [c2] => simp [triggerHere] at h
  | c2 :: c3 :: t3 =>
    unfold triggerHere at h
    simp only [Bool.and_eq_true, Bool.or_eq_true, beq_iff_eq] at h
    rcases h with ⟨⟨hj | hj, _⟩, _⟩ <;> rw [hj] <;> rfl

theorem containsTrigger_all_isDigit (l : List Char) (h : containsTrigger l = true) :
    l.all Char.isDigit = false := by
  induction l with
  | nil => simp [containsTrigger] at h
  | cons c rest ih =>
    unfold containsTrigger at h
    rw [Bool.or_eq_true] at h
    cases h with
    | inl htr =>
      rw [List.all_cons, triggerHere_head_not_digit c rest htr, Bool.false_and]
    | inr hct =>
      rw [List.all_cons, ih hct, Bool.and_false]

theorem containsTrigger_validate_false (s : String)
    (h : containsTrigger s.data = true) : validate_album_id s = false := by
  have hall : s.data.all Char.isDigit = false := containsTrigger_all_isDigit s.data h
  unfold validate_album_id pyIsDigit pyIsDigitList
  rw [hall, Bool.and_false, Bool.false_and, Bool.false_and]

/-! ### Claim theorems -/

/-- C5: `_validate_album_id` returns true exactly for the strings that
consist solely of digits and whose length lies between 1 and 10
inclusive (leading zeros allowed); every other string — the empty
string and any string containing a non-digit character included — is
rejected.  The validator is a pure function of its argument by
construction. -/
theorem C5_validator (s : String) :
    validate_album_id s = true ↔
      ((∀ c ∈ s.data, c.isDigit = true) ∧ 1 ≤ s.length ∧ s.length ≤ 10) := by
  obtain ⟨l⟩ := s
  unfold validate_album_id pyIsDigit pyIsDigitList
  simp only [Bool.and_eq_true, decide_eq_true_eq, Bool.not_eq_true', List.all_eq_true]
  constructor
  · rintro ⟨⟨⟨hne, hall⟩, h1⟩, h10⟩
    exact ⟨hall, h1, h10⟩
  · rintro ⟨hall, h1, h10⟩
    refine ⟨⟨⟨?_, hall⟩, h1⟩, h10⟩
    cases l with
    | nil => exact absurd h1 (by decide)
    | cons c t => rfl

/-- C5 witness: a concrete digit string of admissible length is
accepted. -/
theorem C5_validator_witness : validate_album_id "0123456789" = true :=
  (C5_validator "0123456789").mpr (by decide)

/-- C8: after dispatch returns, the completion poller checks for the
expected artifact path once per time unit; if the artifact appears at
one of its checks (all of which happen at elapsed times `0..FILE_TIMEOUT+1`)
it returns the expected path, and if the artifact is absent at every
such check — so that the elapsed time exceeds the 30-unit budget
without it appearing — it raises a `TimeoutError` carrying the
expected path. -/
theorem C8_completion_poller (present : Nat → Bool) (path : String) :
    ((∃ t, t ≤ FILE_TIMEOUT + 1 ∧ present t = true) →
      awaitArtifact present path = .ok path) ∧
    ((∀ t, t ≤ FILE_TIMEOUT + 1 → present t = false) →
      awaitArtifact present path = .error (.timeoutError (timeoutMsg path))) := by
  constructor
  · rintro ⟨t, ht, hp⟩
    exact awaitArtifactAux_ok present path (FILE_TIMEOUT + 2) 0 t rfl (Nat.zero_le t) ht hp
  · intro h
    exact awaitArtifactAux_timeout present path (FILE_TIMEOUT + 2) 0 rfl h

/-- C8 witness: an artifact appearing at elapsed time 2 is returned. -/
theorem C8_completion_poller_witness :
    awaitArtifact (fun t => decide (t = 2)) "pdf/1.pdf" = .ok "pdf/1.pdf" :=
  (C8_completion_poller (fun t => decide (t = 2)) "pdf/1.pdf").1 ⟨2, by decide, by decide⟩

/-- C6: the retry controller (tenacity, `stop_after_attempt(3)`) makes
exactly `MAX_RETRY_ATTEMPTS = 3` attempts when every attempt raises
(whatever the exception values are, timeouts included) and then raises
the terminal `RetryError`; and a first successful attempt `k`
short-circuits the remaining attempts and returns the artifact path
after exactly `k+1` attempts. -/
theorem C6_retry_controller :
    (∀ (a : Nat → Except PyErr String) (es : Nat → PyErr),
        (∀ i, i < MAX_RETRY_ATTEMPTS → a i = .error (es i)) →
        retryResult a = .error (.retryError (es 2)) ∧ retryCount a = MAX_RETRY_ATTEMPTS) ∧
    (∀ (a : Nat → Except PyErr String) (k : Nat) (path : String),
        k < MAX_RETRY_ATTEMPTS → (∀ i, i < k → ∃ e, a i = .error e) →
        a k = .ok path →
        retryResult a = .ok path ∧ retryCount a = k + 1) := by
  constructor
  · intro a es h
    have h0 := h 0 (by decide)
    have h1 := h 1 (by decide)
    have h2 := h 2 (by decide)
    unfold retryResult retryCount retryCall3
    rw [h0, h1, h2]
    exact ⟨rfl, rfl⟩
  · intro a k path hk h hok
    have hk3 : k < 3 := hk
    interval_cases k
    · unfold retryResult retryCount retryCall3
      rw [hok]
      exact ⟨rfl, rfl⟩
    · obtain ⟨e0, he0⟩ := h 0 (by decide)
      unfold retryResult retryCount retryCall3
      rw [he0, hok]
      exact ⟨rfl, rfl⟩
    · obtain ⟨e0, he0⟩ := h 0 (by decide)
      obtain ⟨e1, he1⟩ := h 1 (by decide)
      unfold retryResult retryCount retryCall3
      rw [he0, he1, hok]
      exact ⟨rfl, rfl⟩

/-- C6 witness: an always-failing attempt sequence exhausts exactly the
3 attempts and surfaces the terminal wrapped error. -/
theorem C6_retry_controller_witness :
    retryResult (fun _ => .error (.engineError "boom"))
        = .error (.retryError (.engineError "boom")) ∧
    retryCount (fun _ => .error (.engineError "boom")) = MAX_RETRY_ATTEMPTS :=
  C6_retry_controller.1 (fun _ => .error (.engineError "boom"))
    (fun _ => .engineError "boom") (fun _ _ => rfl)

/-- C2: for every inbound message whose text the trigger pattern
`jm\d+` (case-insensitive, unanchored) matches, the token passed to the
validator is the full message text including the `jm` prefix; that text
contains a non-digit character, so validation fails, the handler yields
the invalid-ID reply, and `_download_album` is never invoked. -/
theorem C2_trigger_rejected (p : Plugin) (text : String) (fsAt : Nat → Fs)
    (engAt : Nat → EngineBehavior) (h : containsTrigger text.data = true) :
    handle_album_id p text fsAt engAt = ⟨[Reply.plain INVALID_MSG], 0, false⟩ := by
  have hval : validate_album_id text = false := containsTrigger_validate_false text h
  unfold handle_album_id
  rw [if_pos (Or.inr hval)]

/-- C2 witness: the message text jm123 matches the trigger and is
rejected without any download. -/
theorem C2_trigger_rejected_witness :
    handle_album_id (mkPlugin defaultCfg) "jm123" wFsAt wEngZero
        = ⟨[Reply.plain INVALID_MSG], 0, false⟩ :=
  C2_trigger_rejected (mkPlugin defaultCfg) "jm123" wFsAt wEngZero (by decide)

/-- C7: when the attempt budget is exhausted, the exception raised to
the caller is the `RetryError` wrapping the last underlying failure of
the final attempt; the caller-facing result is a failure message.  In
particular, when the last attempt failed with a `TimeoutError`, the
terminal error observed by the caller wraps exactly that timeout
failure, and the handler surfaces it through its generic-failure
branch (the wrapped `RetryError` is not itself a `TimeoutError`). -/
theorem C7_retries_exhausted_wraps_last (p : Plugin) (album_id : String)
    (fsAt : Nat → Fs) (engAt : Nat → EngineBehavior) (e0 e1 : PyErr) (pth : String)
    (hv : validate_album_id album_id = true)
    (h0 : (download_album_attempt p album_id (fsAt 0) (engAt 0)).result = .error e0)
    (h1 : (download_album_attempt p album_id (fsAt 1) (engAt 1)).result = .error e1)
    (h2 : (download_album_attempt p album_id (fsAt 2) (engAt 2)).result
            = .error (.timeoutError pth)) :
    retryResult (fun i => (download_album_attempt p album_id (fsAt i) (engAt i)).result)
        = .error (.retryError (.timeoutError pth)) ∧
    (handle_album_id p album_id fsAt engAt).replies =
      [Reply.plain (startMsg album_id),
       Reply.plain ("❌ 处理失败: " ++ errStr (.retryError (.timeoutError pth)))] := by
  have hres : retryCall3 (fun i => (handlerAttempt p album_id fsAt engAt i).result)
      = (.error (.retryError (.timeoutError pth)), [0, 1, 2]) := by
    unfold retryCall3 handlerAttempt
    simp only [h0, h1, h2]
  have hcond : ¬(album_id = "" ∨ validate_album_id album_id = false) := by
    rintro (he | hf)
    · rw [he] at hv; exact absurd hv (by decide)
    · rw [hv] at hf; exact absurd hf (by decide)
  constructor
  · unfold retryResult
    have : (fun i => (download_album_attempt p album_id (fsAt i) (engAt i)).result)
        = fun i => (handlerAttempt p album_id fsAt engAt i).result := rfl
    rw [this, hres]
  · unfold handle_album_id
    rw [if_neg hcond, hres]
    rfl

/-- C7 witness: with the descriptor held as a Path, two raising
dispatches and a final attempt whose polling times out, the terminal
error wraps that timeout and the handler replies with the generic
failure message. -/
theorem C7_retries_exhausted_wraps_last_witness :
    retryResult (fun i => (download_album_attempt wPlugin "123456" (wFsAt i) (wEngAt7 i)).result)
        = .error (.retryError (.timeoutError (timeoutMsg (pdfPath wPlugin "123456")))) ∧
    (handle_album_id wPlugin "123456" wFsAt wEngAt7).replies =
      [Reply.plain (startMsg "123456"),
       Reply.plain ("❌ 处理失败: "
         ++ errStr (.retryError (.timeoutError (timeoutMsg (pdfPath wPlugin "123456")))))] :=
  C7_retries_exhausted_wraps_last wPlugin "123456" wFsAt wEngAt7
    (.engineError engineErrMsg) (.engineError engineErrMsg)
    (timeoutMsg (pdfPath wPlugin "123456")) (by decide) rfl rfl rfl

/-- C10: within one request the steps execute strictly in the order
Validate, then Descriptor creation, then Cache check, then Dispatch,
then Poll.  Concretely: the step trace of every attempt of
`_download_album` is a prefix of the canonical order (so no step is
reordered and no later step is reached once an earlier one fails or the
cache short-circuits); a request failing validation produces no
download step at all; and the download pipeline runs only for
validated input. -/
theorem C10_step_ordering :
    (∀ (p : Plugin) (album_id : String) (fs : Fs) (eng : EngineBehavior),
        ∃ rest, [Step.descriptor, Step.cacheCheck, Step.dispatch, Step.poll] =
          (download_album_attempt p album_id fs eng).trace ++ rest) ∧
    (∀ (p : Plugin) (text : String) (fsAt : Nat → Fs) (engAt : Nat → EngineBehavior),
        validate_album_id text = false →
          handle_album_id p text fsAt engAt = ⟨[Reply.plain INVALID_MSG], 0, false⟩) ∧
    (∀ (p : Plugin) (text : String) (fsAt : Nat → Fs) (engAt : Nat → EngineBehavior),
        (handle_album_id p text fsAt engAt).downloadInvoked = true →
          validate_album_id text = true) := by
  refine ⟨?_, ?_, ?_⟩
  · intro p album_id fs eng
    unfold download_album_attempt
    cases hc : create_option_file p fs with
    | error e => exact ⟨[Step.cacheCheck, Step.dispatch, Step.poll], rfl⟩
    | ok fs2 =>
      dsimp only
      by_cases hfe : fsExists fs2 (pdfPath p album_id) = true
      · rw [if_pos hfe]
        exact ⟨[Step.dispatch, Step.poll], rfl⟩
      · rw [if_neg hfe]
        by_cases hr : eng.raises = true
        · rw [if_pos hr]
          exact ⟨[Step.poll], rfl⟩
        · rw [if_neg hr]
          exact ⟨[], rfl⟩
  · intro p text fsAt engAt hval
    unfold handle_album_id
    rw [if_pos (Or.inr hval)]
  · intro p text fsAt engAt h
    by_cases hc : text = "" ∨ validate_album_id text = false
    · unfold handle_album_id at h
      rw [if_pos hc] at h
      exact absurd h (by decide)
    · rcases not_or.mp hc with ⟨_, hnf⟩
      cases hb : validate_album_id text with
      | true => rfl
      | false => exact absurd hb hnf

/-- C10 witness: a message failing validation yields the invalid-ID
reply with no pipeline step. -/
theorem C10_step_ordering_witness :
    handle_album_id (mkPlugin defaultCfg) "jmx" wFsAt wEngZero
        = ⟨[Reply.plain INVALID_MSG], 0, false⟩ :=
  C10_step_ordering.2.1 (mkPlugin defaultCfg) "jmx" wFsAt wEngZero (by decide)

/-- C4: every invocation of `_create_option_file` raises an
`AttributeError` before performing any filesystem write, because
`self._option_file` is a plain `str` on which `.exists()` is called;
consequently every attempt of `_download_album` fails at the descriptor
step — before the cache check and before the dispatch — leaving the
filesystem unchanged, and the descriptor file is never written.
This holds for every configuration, filesystem state, identifier and
engine behaviour. -/
theorem C4_descriptor_attribute_error (cfg : AstrBotConfig) (fs : Fs)
    (album_id : String) (eng : EngineBehavior) :
    create_option_file (mkPlugin cfg) fs = .error (.attributeError attrErrMsg) ∧
    download_album_attempt (mkPlugin cfg) album_id fs eng =
      ⟨.error (.attributeError attrErrMsg), [Step.descriptor], fs⟩ :=
  ⟨rfl, rfl⟩

/-- C3: the claim of idempotent descriptor creation fails on the code.
Calling `_create_option_file` never results in a filesystem write at
all: on every call — the first and the second alike, on any filesystem
state — the existence check on the `str`-typed `_option_file` raises an
`AttributeError` before the write, so two calls perform zero writes
rather than exactly one, and no descriptor content ever exists to
compare. -/
theorem C3_descriptor_never_written (fs : Fs) :
    create_option_file (mkPlugin defaultCfg) fs
      = .error (.attributeError attrErrMsg) :=
  rfl

/-- C9: the cache-lookup claim fails on the code.  Even when a file
exists at the deterministic cached path at check time, one attempt of
the download operation never returns the cached path: the descriptor
step that precedes the cache check raises an `AttributeError`, so the
attempt errors out with the cache check unreached (its trace stops at
the descriptor step). -/
theorem C9_cache_hit_never_returned :
    fsExists cachedFs (pdfPath (mkPlugin defaultCfg) "123456") = true ∧
    download_album_attempt (mkPlugin defaultCfg) "123456" cachedFs ⟨false, fun _ => true⟩ =
      ⟨.error (.attributeError attrErrMsg), [Step.descriptor], cachedFs⟩ :=
  ⟨by decide, rfl⟩

/-- C1: the end-to-end success claim fails on the code.  For the
inbound message jm123456 with no cached artifact and an engine that
would create 123456.pdf within the wait budget (two time units), the
handler does not produce a success result: the token passed to the
validator is the full message text jm123456, validation fails, the
handler yields the invalid-ID reply, and the engine dispatch is
invoked zero times rather than once. -/
theorem C1_end_to_end_scenario_fails :
    handle_album_id (mkPlugin defaultCfg) "jm123456" wFsAt wEngC1 =
      ⟨[Reply.plain INVALID_MSG], 0, false⟩ := by
  decide
